import Mathlib

/-!
Shallow embedding of the philo-frontend client (src/src/Game.tsx) in Lean 4.

The front-end is a single React file.  We embed its data model (the TypeScript
interfaces mirroring the Haskell backend), its API communication layer, and the
state-transforming event handlers of the main `PhilosophicalRPG` component, the
`Game` wrapper component and the `useGameState` hook.  React `useState` cells
become fields of explicit state records; an async handler becomes a function
from the settled outcome of its HTTP call (an `Except`) and the pre-state to
the post-state paired with the list of HTTP requests the handler issued.
TypeScript numbers are embedded as `Int` where the source only ever holds
integers and as `Rat` where the source holds decimal values.
-/

namespace Philo

/-- The four philosophical alignments of the TypeScript union type. -/
inductive PhilosophicalAlignment
  | Utilitarian
  | Existentialist
  | Nihilist
  | Undecided
deriving DecidableEq, Repr

/-- Permanent character markers. -/
inductive PermanentMarker
  | Hypocrite
  | Hedonist
  | Sophist
  | Martyr
deriving DecidableEq, Repr

/-- Item categories. -/
inductive ItemType
  | Weapon
  | Armor
  | Accessory
  | Consumable
deriving DecidableEq, Repr

/-- Syllogism difficulty levels. -/
inductive Difficulty
  | Easy
  | Medium
  | Hard
  | Expert
deriving DecidableEq, Repr

/-- The logical-fallacy taxonomy of the TypeScript union type. -/
inductive FallacyType
  | AdHominem
  | AppealToAuthority
  | Equivocation
  | StrawMan
  | FalseDialemma
  | SlipperySlope
  | CircularReasoning
  | AppealToConsequences
deriving DecidableEq, Repr

/-- One entry of the authenticity history log. -/
structure LogEntry where
  timestamp : String
  choice : String
  impact : Rat
  reason : String
deriving DecidableEq, Repr

/-- The authenticity metric owned by a player state. -/
structure AuthenticityMetric where
  value : Rat
  history : List LogEntry
  permanentMarkers : List PermanentMarker
deriving DecidableEq, Repr

/-- A temporary stat effect. -/
structure TemporaryEffect where
  duration : Int
  statBonus : Int
  penalty : Int
deriving DecidableEq, Repr

/-- An inventory item. -/
structure Item where
  itemId : String
  name : String
  itemType : ItemType
  bodyModifier : Int
  mindModifier : Int
  heartModifier : Int
  authenticityImpact : Rat
  temporaryEffect : Option TemporaryEffect
  description : String
  philosophicalMeaning : String
deriving DecidableEq, Repr

/-- A fallacy combat asset. -/
structure Fallacy where
  fallacyType : FallacyType
  argument : String
  correctIdentification : String
  explanation : String
  damage : Int
deriving DecidableEq, Repr

/-- The authoritative player record held (but never computed) by the client. -/
structure PlayerState where
  playerId : String
  name : String
  body : Int
  mind : Int
  heart : Int
  hitPoints : Int
  maxHitPoints : Int
  authenticityMetric : AuthenticityMetric
  philosophicalAlignment : PhilosophicalAlignment
  inventory : List Item
  equippedFallacies : List Fallacy
  experience : Int
  level : Int
  activeEffects : List TemporaryEffect
deriving DecidableEq, Repr

/-- An enemy encountered in logical combat. -/
structure Enemy where
  enemyId : String
  name : String
  historicalFigure : String
  representedFlaw : FallacyType
  hitPoints : Int
  maxHitPoints : Int
  weakness : FallacyType
  lore : String
deriving DecidableEq, Repr

/-- One choice inside a scenario. -/
structure Choice where
  choiceId : String
  text : String
  alignmentInfluence : PhilosophicalAlignment
  authenticityChange : Rat
  reasoning : String
deriving DecidableEq, Repr

/-- A philosophical scenario with its choice set. -/
structure Scenario where
  scenarioId : String
  title : String
  description : String
  choices : List Choice
  philosophicalBasis : String
deriving DecidableEq, Repr

/-- The display fields of a combat outcome, as read by the combat overlay
from `lastCombatResult`. -/
structure CombatOutcome where
  success : Bool
  damage : Int
  explanation : String
  experienceGained : Int
deriving DecidableEq, Repr

/-- The runtime shape of a `POST /combat/syllogism` response body, as the
handler `handleSyllogismAnswer` destructures it: the fields `combatOutcome`,
`updatedPlayer` and `continuesCombat` of the TypeScript `CombatOutcome`
interface. -/
structure CombatResolveResponse where
  combatOutcome : CombatOutcome
  updatedPlayer : PlayerState
  continuesCombat : Bool
deriving DecidableEq, Repr

/-- The tagged response of `POST /action`.  The handler checks
`response.type` against the string tag `StateUpdate` and reads
`response.playerState`; a missing field is embedded as `none`. -/
structure ActionResponse where
  type : String
  playerState : Option PlayerState
deriving DecidableEq, Repr

/-- The mock syllogism hard-coded inside the combat overlay.  Its validity
flag is never read by any handler; the overlay only displays the premises and
forwards the boolean answer of the player to the backend. -/
structure Syllogism where
  premise1 : String
  premise2 : String
  conclusion : String
  isValid : Bool
  difficulty : Difficulty
deriving DecidableEq, Repr

/-- The action object of a `POST /action` body. -/
structure GameAction where
  type : String
  scenarioId : Option String
  choiceId : Option String
  syllogismId : Option String
  playerAnswer : Option Bool
  enemyId : Option String
deriving DecidableEq, Repr

/-- The HTTP requests the client can issue, one constructor per endpoint,
carrying exactly the body fields the source serializes. -/
inductive ApiRequest
  | playerCreate (playerName : String) (initialAlignment : PhilosophicalAlignment)
  | getPlayer (playerId : String)
  | action (playerId : String) (act : GameAction)
  | getScenarios
  | combatSyllogism (requestPlayerId : String) (syllogismId : String)
      (playerAnswer : Bool) (enemyId : String)
deriving DecidableEq, Repr

/-- A settled HTTP response before the status check: status code, status text
and the JSON body it would parse to. -/
structure HttpResponse (α : Type) where
  status : Nat
  statusText : String
  body : α
deriving DecidableEq, Repr

/-- The fetch `response.ok` predicate: status in the inclusive range 200-299. -/
def responseOk {α : Type} (r : HttpResponse α) : Bool :=
  200 ≤ r.status && r.status ≤ 299

/-- Embedding of `apiRequest`: throw an error built from the status line when
the response is not ok, otherwise resolve with the parsed body. -/
def apiRequest {α : Type} (r : HttpResponse α) : Except String α :=
  if responseOk r then Except.ok r.body
  else Except.error ("API Error: " ++ toString r.status ++ " " ++ r.statusText)

/-- The game phases of the `gamePhase` state cell. -/
inductive GamePhase
  | characterCreation
  | exploration
  | combat
  | scenario
  | ending
deriving DecidableEq, Repr

/-- The state cells of the main `PhilosophicalRPG` component. -/
structure ClientState where
  playerState : Option PlayerState
  currentScenario : Option Scenario
  currentEnemy : Option Enemy
  gamePhase : GamePhase
  sidebarCollapsed : Bool
  lastCombatResult : Option CombatOutcome
deriving DecidableEq, Repr

/-- The initial state of the `PhilosophicalRPG` component: every cell at its
`useState` default. -/
def initState : ClientState :=
  { playerState := none
    currentScenario := none
    currentEnemy := none
    gamePhase := GamePhase.characterCreation
    sidebarCollapsed := false
    lastCombatResult := none }

/-- Embedding of `handleCreatePlayer`: on a resolved `createPlayer` call set
the player state and move to exploration; on a rejection only log.  The
`createPlayer` request is issued in either case. -/
def handleCreatePlayer (name : String) (alignment : PhilosophicalAlignment)
    (resp : Except String PlayerState) (s : ClientState) :
    ClientState × List ApiRequest :=
  match resp with
  | Except.ok newPlayer =>
      ({ s with playerState := some newPlayer, gamePhase := GamePhase.exploration },
       [ApiRequest.playerCreate name alignment])
  | Except.error _ => (s, [ApiRequest.playerCreate name alignment])

/-- Embedding of `handleScenarioChoice`: guard on a present player and
scenario, post the MakeChoice action, and apply the response only when its
tag is the string StateUpdate. -/
def handleScenarioChoice (choiceId : String)
    (resp : Except String ActionResponse) (s : ClientState) :
    ClientState × List ApiRequest :=
  match s.playerState, s.currentScenario with
  | some p, some sc =>
      let req := ApiRequest.action p.playerId
        { type := "MakeChoice"
          scenarioId := some sc.scenarioId
          choiceId := some choiceId
          syllogismId := none
          playerAnswer := none
          enemyId := none }
      match resp with
      | Except.ok r =>
          if r.type = "StateUpdate" then
            ({ s with playerState := r.playerState
                      currentScenario := none
                      gamePhase := GamePhase.exploration }, [req])
          else (s, [req])
      | Except.error _ => (s, [req])
  | _, _ => (s, [])

/-- Embedding of `handleSyllogismAnswer`: guard on a present player and
enemy, post the syllogism answer with the placeholder id, store the combat
outcome and the updated player, and close the encounter when
`continuesCombat` is false. -/
def handleSyllogismAnswer (answer : Bool)
    (resp : Except String CombatResolveResponse) (s : ClientState) :
    ClientState × List ApiRequest :=
  match s.playerState, s.currentEnemy with
  | some p, some e =>
      let req := ApiRequest.combatSyllogism p.playerId "current_syllogism"
        answer e.enemyId
      match resp with
      | Except.ok result =>
          let s1 := { s with lastCombatResult := some result.combatOutcome
                             playerState := some result.updatedPlayer }
          if result.continuesCombat then (s1, [req])
          else ({ s1 with currentEnemy := none
                          gamePhase := GamePhase.exploration }, [req])
      | Except.error _ => (s, [req])
  | _, _ => (s, [])

/-- The enemy the spacebar random-encounter branch constructs. -/
def ghostDiogenes : Enemy :=
  { enemyId := "ghost_diogenes"
    name := "Ghost of Diogenes the Cynic"
    historicalFigure := "Diogenes of Sinope (c. 412-323 BCE)"
    representedFlaw := FallacyType.AdHominem
    hitPoints := 25
    maxHitPoints := 25
    weakness := FallacyType.AdHominem
    lore := "Ancient Greek philosopher known for rejecting social conventions through provocative behavior. In undeath, his valid criticism of society has degraded into mere personal attacks without philosophical substance." }

/-- The fixed trolley-problem scenario the spacebar branch constructs. -/
def trolleyProblem : Scenario :=
  { scenarioId := "trolley_problem"
    title := "The Trolley Problem"
    description := "A runaway trolley is heading toward five people tied to the tracks. You can pull a lever to divert it to a side track, where it will kill one person instead. Do you pull the lever?"
    choices :=
      [ { choiceId := "pull_lever"
          text := "Pull the lever - save five lives by sacrificing one"
          alignmentInfluence := PhilosophicalAlignment.Utilitarian
          authenticityChange := 5
          reasoning := "Utilitarian calculus: greatest good for greatest number justifies action" }
      , { choiceId := "dont_pull"
          text := "Don\x27t pull the lever - refuse to directly cause someone\x27s death"
          alignmentInfluence := PhilosophicalAlignment.Existentialist
          authenticityChange := 3
          reasoning := "Existentialist emphasis on personal responsibility and authenticity of choice" }
      , { choiceId := "walk_away"
          text := "Walk away - none of this matters anyway"
          alignmentInfluence := PhilosophicalAlignment.Nihilist
          authenticityChange := 2
          reasoning := "Nihilistic rejection of moral frameworks as meaningless constructs" } ]
    philosophicalBasis := "Classic thought experiment in utilitarian ethics, first introduced by philosopher Philippa Foot in 1967" }

/-- Embedding of the JavaScript `toLowerCase` as a structural map over the
characters of the string. -/
def jsToLowerCase (s : String) : String :=
  String.mk (s.toList.map Char.toLower)

/-- Embedding of `handleKeyPress`: early return without a player, then switch
on the lower-cased key.  The random draw of `Math.random()` is passed in as a
rational in the unit interval. -/
def handleKeyPress (key : String) (rand : Rat) (s : ClientState) :
    ClientState × List ApiRequest :=
  match s.playerState with
  | none => (s, [])
  | some _ =>
      let k := jsToLowerCase key
      if k = " " then
        if s.gamePhase = GamePhase.exploration then
          if rand < 3 / 10 then
            ({ s with currentEnemy := some ghostDiogenes
                      gamePhase := GamePhase.combat }, [])
          else
            ({ s with currentScenario := some trolleyProblem
                      gamePhase := GamePhase.scenario }, [])
        else (s, [])
      else if k = "e" then (s, [])
      else if k = "escape" then
        if s.gamePhase = GamePhase.scenario ∨ s.gamePhase = GamePhase.combat then
          ({ s with currentScenario := none
                    currentEnemy := none
                    gamePhase := GamePhase.exploration }, [])
        else (s, [])
      else (s, [])

/-- Embedding of the Explore hotbar button.  The hotbar is rendered only when
a player state is present (the guard on the `PlayerHotbar` element), so the
click is a no-op without one. -/
def hotbarExploreClick (s : ClientState) : ClientState × List ApiRequest :=
  match s.playerState with
  | none => (s, [])
  | some _ => ({ s with gamePhase := GamePhase.exploration }, [])

/-- Embedding of the Seek Challenge hotbar button, guarded like
`hotbarExploreClick`. -/
def hotbarSeekChallengeClick (s : ClientState) : ClientState × List ApiRequest :=
  match s.playerState with
  | none => (s, [])
  | some _ => ({ s with gamePhase := GamePhase.combat }, [])

/-- The JavaScript trim whitespace class, restricted to the characters that
can occur here: ASCII whitespace plus the no-break space and the byte order
mark. -/
def isJsWhitespace (c : Char) : Bool :=
  c = ' ' || c = '\t' || c = '\n' || c = '\r' || c = '\x0b' || c = '\x0c' ||
  c = '\u00A0' || c = '\uFEFF'

/-- Embedding of the JavaScript `String.prototype.trim`: drop whitespace from
both ends. -/
def jsTrim (s : String) : String :=
  String.mk (((s.toList.dropWhile isJsWhitespace).reverse.dropWhile
    isJsWhitespace).reverse)

/-- Embedding of the Begin Journey button of `CharacterCreation`: its click
handler calls `handleCreatePlayer` only when the trimmed name is truthy, and
the button is disabled on the same condition. -/
def beginJourneyClick (name : String) (alignment : PhilosophicalAlignment)
    (resp : Except String PlayerState) (s : ClientState) :
    ClientState × List ApiRequest :=
  if jsTrim name = "" then (s, [])
  else handleCreatePlayer name alignment resp s

/-- The mock syllogism hard-coded in `CombatOverlay`.  No handler reads its
validity flag; it exists only as displayed text. -/
def currentSyllogism : Syllogism :=
  { premise1 := "All social conventions are meaningless"
    premise2 := "You follow social conventions"
    conclusion := "Therefore, you are meaningless"
    isValid := false
    difficulty := Difficulty.Medium }

/-- The High Authenticity Utilitarian quick test state of the development
panel: spread the old player, replace the alignment, and replace the
authenticity metric by a copy with value 95. -/
def highAuthenticityUtilitarian (player : PlayerState) : PlayerState :=
  { player with
      philosophicalAlignment := PhilosophicalAlignment.Utilitarian
      authenticityMetric := { player.authenticityMetric with value := 95 } }

/-- The Corrupted Nihilist quick test state of the development panel: spread
the old player, replace the alignment, and replace the authenticity metric by
a copy with value 25 whose marker list is replaced outright. -/
def corruptedNihilist (player : PlayerState) : PlayerState :=
  { player with
      philosophicalAlignment := PhilosophicalAlignment.Nihilist
      authenticityMetric :=
        { player.authenticityMetric with
            value := 25
            permanentMarkers :=
              [PermanentMarker.Hypocrite, PermanentMarker.Hedonist] } }

/-- The Conflicted Existentialist quick test state of the development
panel. -/
def conflictedExistentialist (player : PlayerState) : PlayerState :=
  { player with
      philosophicalAlignment := PhilosophicalAlignment.Existentialist
      authenticityMetric := { player.authenticityMetric with value := 60 } }

/-- The `quickTestStates` array of the development panel: display name paired
with the player state its button would install. -/
def quickTestStates (player : PlayerState) : List (String × PlayerState) :=
  [ ("High Authenticity Utilitarian", highAuthenticityUtilitarian player)
  , ("Corrupted Nihilist", corruptedNihilist player)
  , ("Conflicted Existentialist", conflictedExistentialist player) ]

/-- The state cells of the `Game` wrapper component. -/
structure WrapperState where
  player : Option PlayerState
  currentPhase : String
  error : Option String
deriving DecidableEq, Repr

/-- The initial `gameState` of the `Game` wrapper. -/
def initWrapperState : WrapperState :=
  { player := none
    currentPhase := "character-creation"
    error := none }

/-- The development-environment detection of `DevPanel`. -/
def isDevelopment (hostname : String) : Bool :=
  hostname = "localhost" || hostname = "127.0.0.1"

/-- Embedding of a click on quick test state button `idx` of `DevPanel`: the
panel renders nothing unless the hostname is a development host and a player
is present, and `onStateChange` merges the selected test state into the
wrapper-held player.  No HTTP request is involved anywhere on this path. -/
def devPanelClick (hostname : String) (idx : Nat) (g : WrapperState) :
    WrapperState :=
  match g.player with
  | none => g
  | some player =>
      if isDevelopment hostname then
        match (quickTestStates player)[idx]? with
        | some ts => { g with player := some ts.2 }
        | none => g
      else g

/-- The state cells of the `useGameState` hook. -/
structure GameStateHook where
  playerState : Option PlayerState
  loading : Bool
  error : Option String
deriving DecidableEq, Repr

/-- Embedding of `refreshPlayerState` of the `useGameState` hook: early
return without a player id; otherwise fetch the player state, storing it and
clearing the error on success, and storing the error message on failure;
loading ends false either way. -/
def refreshPlayerState (playerId : Option String)
    (resp : Except String PlayerState) (h : GameStateHook) :
    GameStateHook × List ApiRequest :=
  match playerId with
  | none => (h, [])
  | some pid =>
      match resp with
      | Except.ok st =>
          ({ playerState := some st, loading := false, error := none },
           [ApiRequest.getPlayer pid])
      | Except.error msg =>
          ({ h with loading := false, error := some msg },
           [ApiRequest.getPlayer pid])

/-- The state-transforming events of the `PhilosophicalRPG` component, each
carrying its input and, for handlers that await an HTTP call, the settled
outcome of that call. -/
inductive ClientEvent
  | beginJourney (name : String) (alignment : PhilosophicalAlignment)
      (resp : Except String PlayerState)
  | scenarioChoice (choiceId : String) (resp : Except String ActionResponse)
  | syllogismAnswer (answer : Bool)
      (resp : Except String CombatResolveResponse)
  | keyPress (key : String) (rand : Rat)
  | hotbarExplore
  | hotbarSeekChallenge

/-- One step of the `PhilosophicalRPG` component: dispatch an event to its
handler. -/
def clientStep (e : ClientEvent) (s : ClientState) :
    ClientState × List ApiRequest :=
  match e with
  | ClientEvent.beginJourney name alignment resp =>
      beginJourneyClick name alignment resp s
  | ClientEvent.scenarioChoice choiceId resp =>
      handleScenarioChoice choiceId resp s
  | ClientEvent.syllogismAnswer answer resp =>
      handleSyllogismAnswer answer resp s
  | ClientEvent.keyPress key rand => handleKeyPress key rand s
  | ClientEvent.hotbarExplore => hotbarExploreClick s
  | ClientEvent.hotbarSeekChallenge => hotbarSeekChallengeClick s

/-- Whether a player-state cell value was carried by the HTTP response of an
event: the created player, the player state of a StateUpdate action response,
or the updated player of a combat resolution. -/
def responseCarried (e : ClientEvent) (op : Option PlayerState) : Bool :=
  match e with
  | ClientEvent.beginJourney _ _ (Except.ok q) => decide (op = some q)
  | ClientEvent.scenarioChoice _ (Except.ok r) => decide (op = r.playerState)
  | ClientEvent.syllogismAnswer _ (Except.ok r) =>
      decide (op = some r.updatedPlayer)
  | _ => false

/-- The error taxonomy of the specified backend engine. -/
inductive EngineError
  | ValidationError
  | NotFoundError
  | InvalidStateError
  | ConflictError
deriving DecidableEq, Repr

/-- Modelled from the spec: the backend Player Registry is not part of this
repository (only the client-side HTTP wrapper `createPlayer` is), so its
`createPlayer(name, initialAlignment)` operation is modelled from section 4.1
of the spec: fail with a ValidationError when the name is empty or
whitespace, otherwise initialize balanced attributes, hitPoints equal to
maxHitPoints, authenticity value 50 with empty history and markers, level 1
and experience 0. -/
def registryCreatePlayer (name : String)
    (initialAlignment : PhilosophicalAlignment) :
    Except EngineError PlayerState :=
  if jsTrim name = "" then Except.error EngineError.ValidationError
  else Except.ok
    { playerId := name
      name := name
      body := 5
      mind := 5
      heart := 5
      hitPoints := 10
      maxHitPoints := 10
      authenticityMetric := { value := 50, history := [], permanentMarkers := [] }
      philosophicalAlignment := initialAlignment
      inventory := []
      equippedFallacies := []
      experience := 0
      level := 1
      activeEffects := [] }

/-- A concrete player state used as input for witnesses and counterexamples;
it carries the Sophist marker so that marker preservation is observable. -/
def samplePlayer : PlayerState :=
  { playerId := "p1"
    name := "Simone"
    body := 5
    mind := 5
    heart := 5
    hitPoints := 10
    maxHitPoints := 10
    authenticityMetric :=
      { value := 50, history := [], permanentMarkers := [PermanentMarker.Sophist] }
    philosophicalAlignment := PhilosophicalAlignment.Undecided
    inventory := []
    equippedFallacies := []
    experience := 0
    level := 1
    activeEffects := [] }

/-- A concrete client state inside a combat encounter. -/
def sampleCombatState : ClientState :=
  { playerState := some samplePlayer
    currentScenario := none
    currentEnemy := some ghostDiogenes
    gamePhase := GamePhase.combat
    sidebarCollapsed := false
    lastCombatResult := none }

/-- A concrete client state inside a scenario. -/
def sampleScenarioState : ClientState :=
  { playerState := some samplePlayer
    currentScenario := some trolleyProblem
    currentEnemy := none
    gamePhase := GamePhase.scenario
    sidebarCollapsed := false
    lastCombatResult := none }

/-- A concrete combat outcome for witnesses. -/
def sampleOutcome : CombatOutcome :=
  { success := true
    damage := 5
    explanation := "Correct identification"
    experienceGained := 10 }

/-- A concrete combat resolution response that ends the encounter. -/
def sampleCombatResponse : CombatResolveResponse :=
  { combatOutcome := sampleOutcome
    updatedPlayer := samplePlayer
    continuesCombat := false }

/-- A concrete StateUpdate action response for witnesses. -/
def sampleActionResponse : ActionResponse :=
  { type := "StateUpdate", playerState := some samplePlayer }

/-- A concrete wrapper state holding the sample player. -/
def sampleWrapper : WrapperState :=
  { player := some samplePlayer
    currentPhase := "exploration"
    error := none }

/-- A concrete hook state for witnesses. -/
def sampleHook : GameStateHook :=
  { playerState := none, loading := false, error := none }


/-- A concrete client state in the exploration phase. -/
def sampleExplorationState : ClientState :=
  { playerState := some samplePlayer
    currentScenario := none
    currentEnemy := none
    gamePhase := GamePhase.exploration
    sidebarCollapsed := false
    lastCombatResult := none }

/-- Client states reachable from the initial state under the event step. -/
inductive Reachable : ClientState → Prop
  | init : Reachable initState
  | step (e : ClientEvent) {s : ClientState} :
      Reachable s → Reachable (clientStep e s).1

/-- A client state has a player whenever it is inside an encounter. -/
def encounterHasPlayer (s : ClientState) : Prop :=
  (s.gamePhase = GamePhase.scenario ∨ s.gamePhase = GamePhase.combat) →
  s.playerState.isSome

/-- Every event preserves the property that encounter phases come with a
present player. -/
theorem clientStep_preserves_encounterHasPlayer (e : ClientEvent)
    (s : ClientState) (ih : encounterHasPlayer s) :
    encounterHasPlayer (clientStep e s).1 := by
  cases e with
  | beginJourney name alignment resp =>
      by_cases hn : jsTrim name = ""
      · simpa [clientStep, beginJourneyClick, hn] using ih
      · cases resp with
        | ok q =>
            intro _
            simp [clientStep, beginJourneyClick, handleCreatePlayer, hn]
        | error msg =>
            simpa [clientStep, beginJourneyClick, handleCreatePlayer, hn] using ih
  | scenarioChoice choiceId resp =>
      cases hps : s.playerState with
      | none => simpa [clientStep, handleScenarioChoice, hps] using ih
      | some p =>
          cases hcs : s.currentScenario with
          | none => simpa [clientStep, handleScenarioChoice, hps, hcs] using ih
          | some sc =>
              cases resp with
              | error msg =>
                  simpa [clientStep, handleScenarioChoice, hps, hcs] using ih
              | ok r =>
                  by_cases ht : r.type = "StateUpdate"
                  · intro hph
                    rcases hph with h | h <;>
                      simp [clientStep, handleScenarioChoice, hps, hcs, ht] at h
                  · simpa [clientStep, handleScenarioChoice, hps, hcs, ht] using ih
  | syllogismAnswer answer resp =>
      cases hps : s.playerState with
      | none => simpa [clientStep, handleSyllogismAnswer, hps] using ih
      | some p =>
          cases hce : s.currentEnemy with
          | none => simpa [clientStep, handleSyllogismAnswer, hps, hce] using ih
          | some en =>
              cases resp with
              | error msg =>
                  simpa [clientStep, handleSyllogismAnswer, hps, hce] using ih
              | ok result =>
                  intro _
                  cases hc : result.continuesCombat <;>
                    simp [clientStep, handleSyllogismAnswer, hps, hce, hc]
  | keyPress key rand =>
      cases hps : s.playerState with
      | none => simpa [clientStep, handleKeyPress, hps] using ih
      | some p =>
          intro _
          simp only [clientStep, handleKeyPress, hps]
          split_ifs <;> simp [hps]
  | hotbarExplore =>
      cases hps : s.playerState with
      | none => simpa [clientStep, hotbarExploreClick, hps] using ih
      | some p => intro _; simp [clientStep, hotbarExploreClick, hps]
  | hotbarSeekChallenge =>
      cases hps : s.playerState with
      | none => simpa [clientStep, hotbarSeekChallengeClick, hps] using ih
      | some p => intro _; simp [clientStep, hotbarSeekChallengeClick, hps]

/-- In every reachable scenario or combat state a player is present, so the
player hypotheses of the encounter theorems below hold in live sessions. -/
theorem reachable_encounterHasPlayer {s : ClientState} (h : Reachable s) :
    encounterHasPlayer s := by
  induction h with
  | init => intro hph; rcases hph with h | h <;> simp [initState] at h
  | step e hs ih => exact clientStep_preserves_encounterHasPlayer e _ ih

/-- C2: every invocation of the combat answer handler that passes its guard,
for any boolean answer and any current enemy, posts exactly one
combat-syllogism request whose syllogismId field is the fixed placeholder
string current_syllogism; the handler never supplies a real syllogism id. -/
theorem syllogism_request_uses_placeholder_id (answer : Bool)
    (resp : Except String CombatResolveResponse) (s : ClientState)
    (p : PlayerState) (e : Enemy)
    (hp : s.playerState = some p) (he : s.currentEnemy = some e) :
    (handleSyllogismAnswer answer resp s).2 =
      [ApiRequest.combatSyllogism p.playerId "current_syllogism" answer
        e.enemyId] := by
  cases resp with
  | error msg => simp [handleSyllogismAnswer, hp, he]
  | ok result =>
      cases hc : result.continuesCombat <;>
        simp [handleSyllogismAnswer, hp, he, hc]

/-- Witness for C2 at a concrete combat state. -/
theorem syllogism_request_uses_placeholder_id_witness :
    (handleSyllogismAnswer false (Except.ok sampleCombatResponse)
        sampleCombatState).2 =
      [ApiRequest.combatSyllogism samplePlayer.playerId "current_syllogism"
        false ghostDiogenes.enemyId] :=
  syllogism_request_uses_placeholder_id false (Except.ok sampleCombatResponse)
    sampleCombatState samplePlayer ghostDiogenes rfl rfl

/-- C3: after a successful combat resolution call the player state is
replaced by the returned updatedPlayer and the last combat result by the
returned combatOutcome; when continuesCombat is false the enemy is cleared
and the phase returns to exploration, and when it is true the enemy and the
phase are left in place. -/
theorem combat_resolution_updates_state (answer : Bool)
    (result : CombatResolveResponse) (s : ClientState)
    (p : PlayerState) (e : Enemy)
    (hp : s.playerState = some p) (he : s.currentEnemy = some e) :
    ((handleSyllogismAnswer answer (Except.ok result) s).1.playerState
        = some result.updatedPlayer)
  ∧ ((handleSyllogismAnswer answer (Except.ok result) s).1.lastCombatResult
        = some result.combatOutcome)
  ∧ (result.continuesCombat = false →
        (handleSyllogismAnswer answer (Except.ok result) s).1.currentEnemy
            = none
      ∧ (handleSyllogismAnswer answer (Except.ok result) s).1.gamePhase
            = GamePhase.exploration)
  ∧ (result.continuesCombat = true →
        (handleSyllogismAnswer answer (Except.ok result) s).1.currentEnemy
            = s.currentEnemy
      ∧ (handleSyllogismAnswer answer (Except.ok result) s).1.gamePhase
            = s.gamePhase) := by
  cases hc : result.continuesCombat <;>
    simp [handleSyllogismAnswer, hp, he, hc]

/-- Witness for C3 at a concrete combat state and a response that ends the
encounter. -/
theorem combat_resolution_updates_state_witness :
    ((handleSyllogismAnswer true (Except.ok sampleCombatResponse)
        sampleCombatState).1.playerState
        = some sampleCombatResponse.updatedPlayer)
  ∧ ((handleSyllogismAnswer true (Except.ok sampleCombatResponse)
        sampleCombatState).1.lastCombatResult
        = some sampleCombatResponse.combatOutcome)
  ∧ (sampleCombatResponse.continuesCombat = false →
        (handleSyllogismAnswer true (Except.ok sampleCombatResponse)
            sampleCombatState).1.currentEnemy = none
      ∧ (handleSyllogismAnswer true (Except.ok sampleCombatResponse)
            sampleCombatState).1.gamePhase = GamePhase.exploration)
  ∧ (sampleCombatResponse.continuesCombat = true →
        (handleSyllogismAnswer true (Except.ok sampleCombatResponse)
            sampleCombatState).1.currentEnemy
            = sampleCombatState.currentEnemy
      ∧ (handleSyllogismAnswer true (Except.ok sampleCombatResponse)
            sampleCombatState).1.gamePhase = sampleCombatState.gamePhase) :=
  combat_resolution_updates_state true sampleCombatResponse sampleCombatState
    samplePlayer ghostDiogenes rfl rfl

/-- C8: the action handlers are no-ops outside their preconditions: the
scenario handler leaves the state unchanged and sends no request when the
player or the scenario is absent, and the combat handler likewise when the
player or the enemy is absent. -/
theorem handlers_noop_outside_preconditions :
    (∀ (choiceId : String) (resp : Except String ActionResponse)
        (s : ClientState),
      s.playerState = none ∨ s.currentScenario = none →
      handleScenarioChoice choiceId resp s = (s, []))
  ∧ (∀ (answer : Bool) (resp : Except String CombatResolveResponse)
        (s : ClientState),
      s.playerState = none ∨ s.currentEnemy = none →
      handleSyllogismAnswer answer resp s = (s, [])) := by
  constructor
  · intro choiceId resp s h
    rcases h with h | h
    · simp [handleScenarioChoice, h]
    · cases hps : s.playerState <;> simp [handleScenarioChoice, hps, h]
  · intro answer resp s h
    rcases h with h | h
    · simp [handleSyllogismAnswer, h]
    · cases hps : s.playerState <;> simp [handleSyllogismAnswer, hps, h]

/-- Witness for C8 at the initial state, which has no player, no scenario
and no enemy. -/
theorem handlers_noop_outside_preconditions_witness :
    handleScenarioChoice "pull_lever" (Except.ok sampleActionResponse)
        initState = (initState, [])
  ∧ handleSyllogismAnswer true (Except.ok sampleCombatResponse) initState
        = (initState, []) :=
  ⟨handlers_noop_outside_preconditions.1 "pull_lever"
      (Except.ok sampleActionResponse) initState (Or.inl rfl),
   handlers_noop_outside_preconditions.2 true
      (Except.ok sampleCombatResponse) initState (Or.inl rfl)⟩

/-- C5: resolving a scenario choice posts the MakeChoice action body built
from the player id, the current scenario id and the choice id; the handler
applies the result only when the response tag is StateUpdate, in which case
the player state becomes the carried player state, the scenario is cleared
and the phase returns to exploration, while any other tag leaves the whole
client state unchanged. -/
theorem scenario_choice_state_update (choiceId : String) (r : ActionResponse)
    (s : ClientState) (p : PlayerState) (sc : Scenario)
    (hp : s.playerState = some p) (hs : s.currentScenario = some sc) :
    ((handleScenarioChoice choiceId (Except.ok r) s).2 =
        [ApiRequest.action p.playerId
          { type := "MakeChoice"
            scenarioId := some sc.scenarioId
            choiceId := some choiceId
            syllogismId := none
            playerAnswer := none
            enemyId := none }])
  ∧ (r.type = "StateUpdate" →
        (handleScenarioChoice choiceId (Except.ok r) s).1 =
          { s with playerState := r.playerState
                   currentScenario := none
                   gamePhase := GamePhase.exploration })
  ∧ (r.type ≠ "StateUpdate" →
        (handleScenarioChoice choiceId (Except.ok r) s).1 = s) := by
  by_cases ht : r.type = "StateUpdate" <;>
    simp [handleScenarioChoice, hp, hs, ht]

/-- Witness for C5 at a concrete scenario state and a StateUpdate
response. -/
theorem scenario_choice_state_update_witness :
    ((handleScenarioChoice "pull_lever" (Except.ok sampleActionResponse)
        sampleScenarioState).2 =
        [ApiRequest.action samplePlayer.playerId
          { type := "MakeChoice"
            scenarioId := some trolleyProblem.scenarioId
            choiceId := some "pull_lever"
            syllogismId := none
            playerAnswer := none
            enemyId := none }])
  ∧ (sampleActionResponse.type = "StateUpdate" →
        (handleScenarioChoice "pull_lever" (Except.ok sampleActionResponse)
            sampleScenarioState).1 =
          { sampleScenarioState with
              playerState := sampleActionResponse.playerState
              currentScenario := none
              gamePhase := GamePhase.exploration })
  ∧ (sampleActionResponse.type ≠ "StateUpdate" →
        (handleScenarioChoice "pull_lever" (Except.ok sampleActionResponse)
            sampleScenarioState).1 = sampleScenarioState) :=
  scenario_choice_state_update "pull_lever" sampleActionResponse
    sampleScenarioState samplePlayer trolleyProblem rfl rfl

/-- C9: pressing Escape while the phase is scenario or combat clears both
the current scenario and the current enemy and sets the phase to
exploration, leaving the player state untouched and issuing no HTTP
request; Escape in any other phase changes nothing. -/
theorem escape_clears_encounter_no_http (s : ClientState) (p : PlayerState)
    (rand : Rat) (hp : s.playerState = some p) :
    ((s.gamePhase = GamePhase.scenario ∨ s.gamePhase = GamePhase.combat) →
        handleKeyPress "Escape" rand s =
          ({ s with currentScenario := none
                    currentEnemy := none
                    gamePhase := GamePhase.exploration }, []))
  ∧ ((s.gamePhase ≠ GamePhase.scenario ∧ s.gamePhase ≠ GamePhase.combat) →
        handleKeyPress "Escape" rand s = (s, [])) := by
  constructor
  · intro hph
    rcases hph with h | h <;> simp [handleKeyPress, hp, jsToLowerCase, h]
  · rintro ⟨h1, h2⟩
    simp [handleKeyPress, hp, jsToLowerCase, h1, h2]

/-- Witness for C9 at a concrete scenario state. -/
theorem escape_clears_encounter_no_http_witness :
    handleKeyPress "Escape" 0 sampleScenarioState =
      ({ sampleScenarioState with
          currentScenario := none
          currentEnemy := none
          gamePhase := GamePhase.exploration }, []) :=
  (escape_clears_encounter_no_http sampleScenarioState samplePlayer 0 rfl).1
    (Or.inl rfl)

/-- C10: in the spacebar branch taken with a present player in the
exploration phase, a draw below three tenths constructs the ghost of
Diogenes, whose hit points equal its maximum and whose weakness equals
its represented flaw, and sets the combat phase; the complementary branch
constructs the fixed trolley-problem scenario and sets the scenario
phase. -/
theorem space_encounter_construction (s : ClientState) (p : PlayerState)
    (rand : Rat) (hp : s.playerState = some p)
    (hph : s.gamePhase = GamePhase.exploration) :
    (rand < 3 / 10 →
        (handleKeyPress " " rand s).1.currentEnemy = some ghostDiogenes
      ∧ (handleKeyPress " " rand s).1.gamePhase = GamePhase.combat
      ∧ ghostDiogenes.hitPoints = ghostDiogenes.maxHitPoints
      ∧ ghostDiogenes.weakness = ghostDiogenes.representedFlaw)
  ∧ (¬ rand < 3 / 10 →
        (handleKeyPress " " rand s).1.currentScenario = some trolleyProblem
      ∧ (handleKeyPress " " rand s).1.gamePhase = GamePhase.scenario) := by
  constructor <;> intro h <;>
    simp [handleKeyPress, hp, hph, jsToLowerCase, h, ghostDiogenes]

/-- Witness for C10 at a concrete exploration state and a draw of one
fifth. -/
theorem space_encounter_construction_witness :
    (1 : Rat) / 5 < 3 / 10
  ∧ ((handleKeyPress " " (1 / 5) sampleExplorationState).1.currentEnemy
        = some ghostDiogenes
    ∧ (handleKeyPress " " (1 / 5) sampleExplorationState).1.gamePhase
        = GamePhase.combat
    ∧ ghostDiogenes.hitPoints = ghostDiogenes.maxHitPoints
    ∧ ghostDiogenes.weakness = ghostDiogenes.representedFlaw) :=
  ⟨by norm_num,
   (space_encounter_construction sampleExplorationState samplePlayer (1 / 5)
      rfl rfl).1 (by norm_num)⟩

/-- C7: creating a player with a name whose trimmed form is empty does not
succeed and creates no player: the spec-modelled backend registry fails
with a ValidationError, and the Begin Journey button of the client neither
issues the creation request nor changes any client state. -/
theorem createPlayer_rejects_blank_name (name : String)
    (alignment : PhilosophicalAlignment) (resp : Except String PlayerState)
    (s : ClientState) (h : jsTrim name = "") :
    registryCreatePlayer name alignment
        = Except.error EngineError.ValidationError
  ∧ beginJourneyClick name alignment resp s = (s, []) := by
  constructor <;> simp [registryCreatePlayer, beginJourneyClick, h]

/-- Witness for C7 at a whitespace-only name. -/
theorem createPlayer_rejects_blank_name_witness :
    registryCreatePlayer "   " PhilosophicalAlignment.Existentialist
        = Except.error EngineError.ValidationError
  ∧ beginJourneyClick "   " PhilosophicalAlignment.Existentialist
        (Except.ok samplePlayer) initState = (initState, []) :=
  createPlayer_rejects_blank_name "   " PhilosophicalAlignment.Existentialist
    (Except.ok samplePlayer) initState rfl

/-- C1 counterexample: the development panel computes a new player state
client-side.  Clicking its first quick test state on a localhost wrapper
holding the sample player changes the held player, setting the authenticity
value to 95 where the old value was 50 — a change that consumes no HTTP
response, since devPanelClick takes none. -/
theorem devPanel_mutates_player_client_side :
    (devPanelClick "localhost" 0 sampleWrapper).player ≠ sampleWrapper.player
  ∧ (devPanelClick "localhost" 0 sampleWrapper).player
      = some (highAuthenticityUtilitarian samplePlayer)
  ∧ (highAuthenticityUtilitarian samplePlayer).authenticityMetric.value = 95
  ∧ samplePlayer.authenticityMetric.value = 50 := by
  refine ⟨?_, rfl, rfl, rfl⟩
  intro h
  have h3 := congrArg
    (fun op => (Option.map
      (fun q : PlayerState => q.authenticityMetric.value) op).getD 0) h
  norm_num [sampleWrapper, devPanelClick, isDevelopment, quickTestStates,
    highAuthenticityUtilitarian, samplePlayer] at h3

/-- C1 amended: within the gameplay component no rule quantity is computed
client-side — every step either leaves the held player state unchanged or
replaces it with exactly the value carried by the backend HTTP response of
the event; and the only other mutation path in the front-end, the
development panel, either leaves the wrapper player unchanged or installs
one of its three quick test states. -/
theorem gameplay_player_changes_response_carried :
    (∀ (e : ClientEvent) (s : ClientState),
        (clientStep e s).1.playerState = s.playerState
      ∨ responseCarried e (clientStep e s).1.playerState = true)
  ∧ (∀ (hostname : String) (idx : Nat) (g : WrapperState),
        (devPanelClick hostname idx g).player = g.player
      ∨ ∃ q ts, g.player = some q ∧ (quickTestStates q)[idx]? = some ts
          ∧ (devPanelClick hostname idx g).player = some ts.2) := by
  constructor
  · intro e s
    cases e with
    | beginJourney name alignment resp =>
        by_cases hn : jsTrim name = ""
        · left; simp [clientStep, beginJourneyClick, hn]
        · cases resp with
          | ok q =>
              right
              simp [clientStep, beginJourneyClick, handleCreatePlayer, hn,
                responseCarried]
          | error msg =>
              left
              simp [clientStep, beginJourneyClick, handleCreatePlayer, hn]
    | scenarioChoice choiceId resp =>
        cases hps : s.playerState with
        | none => left; simp [clientStep, handleScenarioChoice, hps]
        | some p =>
            cases hcs : s.currentScenario with
            | none => left; simp [clientStep, handleScenarioChoice, hps, hcs]
            | some sc =>
                cases resp with
                | error msg =>
                    left; simp [clientStep, handleScenarioChoice, hps, hcs]
                | ok r =>
                    by_cases ht : r.type = "StateUpdate"
                    · right
                      simp [clientStep, handleScenarioChoice, hps, hcs, ht,
                        responseCarried]
                    · left
                      simp [clientStep, handleScenarioChoice, hps, hcs, ht]
    | syllogismAnswer answer resp =>
        cases hps : s.playerState with
        | none => left; simp [clientStep, handleSyllogismAnswer, hps]
        | some p =>
            cases hce : s.currentEnemy with
            | none => left; simp [clientStep, handleSyllogismAnswer, hps, hce]
            | some en =>
                cases resp with
                | error msg =>
                    left; simp [clientStep, handleSyllogismAnswer, hps, hce]
                | ok result =>
                    right
                    cases hc : result.continuesCombat <;>
                      simp [clientStep, handleSyllogismAnswer, hps, hce, hc,
                        responseCarried]
    | keyPress key rand =>
        left
        cases hps : s.playerState with
        | none => simp [clientStep, handleKeyPress, hps]
        | some p =>
            simp only [clientStep, handleKeyPress, hps]
            split_ifs <;> simp [hps]
    | hotbarExplore =>
        left
        cases hps : s.playerState <;>
          simp [clientStep, hotbarExploreClick, hps]
    | hotbarSeekChallenge =>
        left
        cases hps : s.playerState <;>
          simp [clientStep, hotbarSeekChallengeClick, hps]
  · intro hostname idx g
    cases hgp : g.player with
    | none => left; simp [devPanelClick, hgp]
    | some q =>
        by_cases hd : isDevelopment hostname
        · cases hts : (quickTestStates q)[idx]? with
          | none => left; simp [devPanelClick, hgp, hd, hts]
          | some ts =>
              right
              exact ⟨q, ts, rfl, hts, by simp [devPanelClick, hgp, hd, hts]⟩
        · left; simp [devPanelClick, hgp, hd]

/-- C6 counterexample: the Corrupted Nihilist quick test state of the
development panel replaces the marker set outright, so the Sophist marker
present in the old player is absent from the new one. -/
theorem corruptedNihilist_removes_marker :
    PermanentMarker.Sophist ∈ samplePlayer.authenticityMetric.permanentMarkers
  ∧ (devPanelClick "localhost" 1 sampleWrapper).player
      = some (corruptedNihilist samplePlayer)
  ∧ PermanentMarker.Sophist ∉
      (corruptedNihilist samplePlayer).authenticityMetric.permanentMarkers :=
  ⟨by decide, rfl, by decide⟩

/-- C6 amended: of the client-side operations deriving a new player state
from an old one, the two value-only quick test states leave the marker set
unchanged, while the Corrupted Nihilist quick test state replaces it with
exactly the pair Hypocrite, Hedonist — so markers survive it only when
already contained in that pair. -/
theorem quick_test_states_marker_effect (p : PlayerState) :
    (highAuthenticityUtilitarian p).authenticityMetric.permanentMarkers
        = p.authenticityMetric.permanentMarkers
  ∧ (conflictedExistentialist p).authenticityMetric.permanentMarkers
        = p.authenticityMetric.permanentMarkers
  ∧ (corruptedNihilist p).authenticityMetric.permanentMarkers
        = [PermanentMarker.Hypocrite, PermanentMarker.Hedonist] :=
  ⟨rfl, rfl, rfl⟩

/-- C4 counterexample: not every caller of apiRequest only logs a
rejection.  The refreshPlayerState callback of the useGameState hook stores
the rejection message in its error state cell, changing the hook state. -/
theorem useGameState_stores_error_message :
    (refreshPlayerState (some "p1") (Except.error "API Error: 404 Not Found")
        sampleHook).1.error = some "API Error: 404 Not Found"
  ∧ (refreshPlayerState (some "p1") (Except.error "API Error: 404 Not Found")
        sampleHook).1 ≠ sampleHook := by
  refine ⟨rfl, ?_⟩
  intro h
  have h2 := congrArg GameStateHook.error h
  simp [refreshPlayerState, sampleHook] at h2

/-- C4 amended: apiRequest rejects, with an error built only from the
status and status text, exactly when the response status is outside the
2xx range, and otherwise resolves with the parsed body; the three game
handlers treat a rejection as a generic failure and leave their state
unchanged, while the refreshPlayerState caller of the unused useGameState
hook additionally records the message in its error cell. -/
theorem apiRequest_status_check_and_caller_handling :
    (∀ (α : Type) (r : HttpResponse α),
        (responseOk r = false →
          apiRequest r = Except.error
            ("API Error: " ++ toString r.status ++ " " ++ r.statusText))
      ∧ (responseOk r = true → apiRequest r = Except.ok r.body))
  ∧ (∀ (name : String) (alignment : PhilosophicalAlignment) (msg : String)
        (s : ClientState),
        (handleCreatePlayer name alignment (Except.error msg) s).1 = s)
  ∧ (∀ (choiceId : String) (msg : String) (s : ClientState),
        (handleScenarioChoice choiceId (Except.error msg) s).1 = s)
  ∧ (∀ (answer : Bool) (msg : String) (s : ClientState),
        (handleSyllogismAnswer answer (Except.error msg) s).1 = s)
  ∧ (∀ (pid : String) (msg : String) (h : GameStateHook),
        (refreshPlayerState (some pid) (Except.error msg) h).1.playerState
            = h.playerState
      ∧ (refreshPlayerState (some pid) (Except.error msg) h).1.error
            = some msg) := by
  refine ⟨?_, ?_, ?_, ?_, ?_⟩
  · intro α r
    constructor <;> intro h <;> simp [apiRequest, h]
  · intro name alignment msg s
    simp [handleCreatePlayer]
  · intro choiceId msg s
    cases hps : s.playerState with
    | none => simp [handleScenarioChoice, hps]
    | some p =>
        cases hcs : s.currentScenario <;>
          simp [handleScenarioChoice, hps, hcs]
  · intro answer msg s
    cases hps : s.playerState with
    | none => simp [handleSyllogismAnswer, hps]
    | some p =>
        cases hce : s.currentEnemy <;>
          simp [handleSyllogismAnswer, hps, hce]
  · intro pid msg h
    simp [refreshPlayerState]

/-- Witness for C4 at a concrete 404 response and a concrete scenario
state. -/
theorem apiRequest_status_check_witness :
    apiRequest { status := 404, statusText := "Not Found", body := (0 : Nat) }
        = Except.error
            ("API Error: " ++ toString (404 : Nat) ++ " " ++ "Not Found")
  ∧ (handleScenarioChoice "pull_lever" (Except.error "boom")
        sampleScenarioState).1 = sampleScenarioState :=
  ⟨(apiRequest_status_check_and_caller_handling.1 Nat
      { status := 404, statusText := "Not Found", body := 0 }).1 rfl,
   apiRequest_status_check_and_caller_handling.2.2.1 "pull_lever" "boom"
      sampleScenarioState⟩

end Philo
